import Mathlib

/-!
Shallow embedding of the per-communicator multi-stream transfer engine of
`src/src/bagua_net.rs` (struct `BaguaNet` and its worker threads), together
with theorems settling the spec claims about it.

Bytes are modelled as `Nat` values; `usize` arithmetic is `Nat` arithmetic
(the quantities involved — lengths, counters, ids — never overflow 64 bits
in the code's own usage, and the code performs no wrapping arithmetic on
them).  Fallible operations return `Option`/`Except`; a Rust `unwrap()`
panic on a missing map key or failed syscall is modelled as `none` or a
dedicated `panic` constructor.
-/

namespace BaguaNetModel

/-- `RequestState` (bagua_net.rs lines 77-82): subtask accounting triple for
one outstanding request. -/
structure RequestState where
  nsubtasks : Nat
  completed_subtasks : Nat
  nbytes_transferred : Nat
  deriving Repr, DecidableEq

/-- The initial request state built by `isend`/`irecv`
(bagua_net.rs lines 586-590 and 620-624): one control subtask planned,
nothing completed, nothing transferred. -/
def initialRequestState : RequestState :=
  { nsubtasks := 1, completed_subtasks := 0, nbytes_transferred := 0 }

/-- The bucket size computed by both control workers
(bagua_net.rs lines 439-445 in `connect`, 543-550 in `accept`).  The Rust
expression in the splitting branch is
`data.len() + (parallel_streams.len() - 1) / parallel_streams.len()`:
division binds tighter than addition, so the addend is `(n-1)/n`. -/
def bucketSize (task_split_threshold nstreams len : Nat) : Nat :=
  if len ≥ task_split_threshold ∧ len > nstreams then
    len + (nstreams - 1) / nstreams
  else
    len

/-- Modelled from the spec: the intended bucket size of §4.4 step 2 —
`ceil(payload.len / N) = (payload.len + N - 1) / N` when splitting,
`payload.len` otherwise.  Kept separate from `bucketSize` (the code's
formula) so the two can be compared. -/
def bucketSizeSpec (task_split_threshold nstreams len : Nat) : Nat :=
  if len ≥ task_split_threshold ∧ len > nstreams then
    (len + nstreams - 1) / nstreams
  else
    len

/-- Rust `slice::chunks(size)` on a list: consecutive slices of `size`
elements, the last one possibly shorter.  The code only calls it with a
positive `size` (`size = 0` is mapped to `[]` here; Rust would panic). -/
def chunks (size : Nat) (l : List α) : List (List α) :=
  if h : size = 0 ∨ l.isEmpty then []
  else (l.take size) :: chunks size (l.drop size)
termination_by l.length
decreasing_by
  simp only [not_or, List.isEmpty_iff] at h
  have h1 : 1 ≤ size := Nat.one_le_iff_ne_zero.mpr h.1
  have h2 : 0 < l.length := List.length_pos.mpr h.2
  simp only [List.length_drop]
  omega

/-- `usize::to_be_bytes()` on a 64-bit platform (used at line 416 for
`send_nbytes` and, mirror-image, at line 524 for the receive buffer of the
header): the 8 big-endian bytes of `n`. -/
def u64be (n : Nat) : List Nat :=
  [n / 2 ^ 56 % 256, n / 2 ^ 48 % 256, n / 2 ^ 40 % 256, n / 2 ^ 32 % 256,
   n / 2 ^ 24 % 256, n / 2 ^ 16 % 256, n / 2 ^ 8 % 256, n % 256]

/-- `usize::from_be_bytes` (line 526): decode big-endian bytes. -/
def fromBeBytes (bs : List Nat) : Nat :=
  bs.foldl (fun acc b => acc * 256 + b) 0

/-- The round-robin bucket dispatch loop shared by both control workers
(lines 446-452 in `connect`, 552-558 in `accept`): for each bucket,
increment `nsubtasks` under the state mutex, send the `(bucket, state)`
pair to stream worker `downstream_id`, then advance
`downstream_id = (downstream_id + 1) % nstreams`.  Returns the final
request state, the final cursor, and the `(stream index, bucket)`
dispatches in order. -/
def dispatchBuckets (nstreams : Nat) (st : RequestState) (did : Nat) :
    List (List Nat) → RequestState × Nat × List (Nat × List Nat)
  | [] => (st, did, [])
  | b :: rest =>
    let st' := { st with nsubtasks := st.nsubtasks + 1 }
    let r := dispatchBuckets nstreams st' ((did + 1) % nstreams) rest
    (r.1, r.2.1, (did, b) :: r.2.2)

/-- What one iteration of the send-side control worker produces. -/
structure SendStepResult where
  controlBytes : List Nat
  dispatches : List (Nat × List Nat)
  state : RequestState
  downstreamId : Nat
  deriving Repr, DecidableEq

/-- One iteration of the send-side control worker loop
(lines 415-456 of `connect`), for one dequeued `(data, state)` pair.
The first branch is the code's dead `if data.len() < 0` branch
(lines 417-434; never taken, `data.len()` is a `usize`).  The live branch
writes the 8-byte header to the master stream, dispatches
`data.chunks(bucket_size)` round-robin when `data.len() != 0`, and finally
increments `completed_subtasks` for the control-header subtask
(line 454). -/
def sendCtrlStep (task_split_threshold nstreams : Nat) (data : List Nat)
    (st : RequestState) (did : Nat) : SendStepResult :=
  let send_nbytes := u64be data.length
  if data.length < 0 then
    { controlBytes := send_nbytes ++ (if data.length ≠ 0 then data else []),
      dispatches := [],
      state := { st with
                  completed_subtasks := st.completed_subtasks + 1,
                  nbytes_transferred := st.nbytes_transferred + data.length },
      downstreamId := did }
  else if data.length ≠ 0 then
    let bs := bucketSize task_split_threshold nstreams data.length
    let r := dispatchBuckets nstreams st did (chunks bs data)
    { controlBytes := send_nbytes,
      dispatches := r.2.2,
      state := { r.1 with completed_subtasks := r.1.completed_subtasks + 1 },
      downstreamId := r.2.1 }
  else
    { controlBytes := send_nbytes,
      dispatches := [],
      state := { st with completed_subtasks := st.completed_subtasks + 1 },
      downstreamId := did }

/-- What one iteration of the receive-side control worker produces.
`ctrlRest` is what remains of the control-endpoint byte stream after the
iteration; the consumed prefix is exactly the bytes read from the master
stream. -/
structure RecvStepResult where
  ctrlRest : List Nat
  dispatches : List (Nat × List Nat)
  state : RequestState
  downstreamId : Nat
  deriving Repr, DecidableEq

/-- One iteration of the receive-side control worker loop
(lines 523-560 of `accept`), for one dequeued `(data, state)` pair, run
against the control-endpoint byte stream `ctrl`.  It reads exactly 8
header bytes, decodes them big-endian; on length 0 it only increments
`completed_subtasks` (lines 529-530); the `target_nbytes < 0` branch
(lines 531-541) is dead on a `usize`; otherwise it dispatches
`data[..target_nbytes].chunks_mut(bucket_size)` round-robin and
increments `completed_subtasks` (lines 542-559). -/
def recvCtrlStep (task_split_threshold nstreams : Nat) (data : List Nat)
    (ctrl : List Nat) (st : RequestState) (did : Nat) : RecvStepResult :=
  let target_nbytes := fromBeBytes (ctrl.take 8)
  let rest := ctrl.drop 8
  if target_nbytes = 0 then
    { ctrlRest := rest, dispatches := [],
      state := { st with completed_subtasks := st.completed_subtasks + 1 },
      downstreamId := did }
  else if target_nbytes < 0 then
    { ctrlRest := rest.drop target_nbytes, dispatches := [],
      state := { st with
                  completed_subtasks := st.completed_subtasks + 1,
                  nbytes_transferred := st.nbytes_transferred + target_nbytes },
      downstreamId := did }
  else
    let bs := bucketSize task_split_threshold nstreams target_nbytes
    let r := dispatchBuckets nstreams st did (chunks bs (data.take target_nbytes))
    { ctrlRest := rest, dispatches := r.2.2,
      state := { r.1 with completed_subtasks := r.1.completed_subtasks + 1 },
      downstreamId := r.2.1 }

/-- The bytes the send-side control worker writes to the control endpoint
over a run of messages, each paired (as `isend` does) with a fresh
`initialRequestState`, threading the round-robin cursor between
messages. -/
def sendCtrlTrace (task_split_threshold nstreams did : Nat) :
    List (List Nat) → List Nat
  | [] => []
  | data :: rest =>
    let r := sendCtrlStep task_split_threshold nstreams data initialRequestState did
    r.controlBytes ++ sendCtrlTrace task_split_threshold nstreams r.downstreamId rest

/-- `BaguaNetError` (lines 57-65). -/
inductive BaguaNetError where
  | ioError (detail : String)
  | tcpError (detail : String)
  | innerError (detail : String)
  deriving Repr, DecidableEq

/-- A registered request (enum `SocketRequest`, lines 84-87): direction plus
the `Arc<Mutex<RequestState>>` shared with the workers, modelled by value
(the registry holds the authoritative copy). -/
inductive SocketRequest where
  | sendRequest (state : RequestState)
  | recvRequest (state : RequestState)
  deriving Repr, DecidableEq

/-- The request state carried by either direction. -/
def SocketRequest.reqState : SocketRequest → RequestState
  | .sendRequest st => st
  | .recvRequest st => st

/-- `HashMap::get` on an association list. -/
def lookupA (k : Nat) : List (Nat × β) → Option β
  | [] => none
  | (k', v) :: rest => if k' = k then some v else lookupA k rest

/-- `HashMap::remove` on an association list. -/
def removeA (k : Nat) : List (Nat × β) → List (Nat × β)
  | [] => []
  | (k', v) :: rest => if k' = k then removeA k rest else (k', v) :: removeA k rest

/-- `HashMap::insert` on an association list (replacing any previous
binding of the key). -/
def insertA (k : Nat) (v : β) (l : List (Nat × β)) : List (Nat × β) :=
  (k, v) :: removeA k l

/-- The device address as matched in `listen` (nix `SockAddr`, line 289):
either an internet address (v4 or v6) or some other address family whose
debug form is `desc`. -/
inductive SockAddrM where
  | inet (isV6 : Bool) (addr : List Nat) (port : Nat)
  | other (desc : String)
  deriving Repr, DecidableEq

/-- The fields of `utils::NCCLSocketDev` that `get_properties` and `listen`
read: interface name, PCI path and bound address. -/
structure NCCLSocketDev where
  interface_name : String
  pci_path : String
  addr : SockAddrM
  deriving Repr, DecidableEq

/-- `NCCLNetProperties` (lines 24-33). -/
structure NCCLNetProperties where
  name : String
  pci_path : String
  guid : Nat
  ptr_support : Int
  speed : Int
  port : Int
  max_comms : Int
  deriving Repr, DecidableEq

/-- `NCCL_PTR_HOST` (line 17): host-memory-only pointer support. -/
def NCCL_PTR_HOST : Int := 1

/-- `BaguaNet::DEFAULT_SOCKET_MAX_COMMS` (line 127). -/
def DEFAULT_SOCKET_MAX_COMMS : Int := 65536

/-- The engine registries of struct `BaguaNet` (lines 108-124), restricted
to what the claims touch.  `HashMap`s become association lists; a send
communicator's channel is its queue of `(payload, request id)` pairs, a
recv communicator's its queue of `(buffer length, request id)` pairs
(the `Arc<Mutex<RequestState>>` travelling on the real channel is keyed
here by the request id). -/
structure BaguaNetState where
  socket_devs : List NCCLSocketDev
  listen_comm_next_id : Nat
  listen_comm_map : List (Nat × Unit)
  send_comm_next_id : Nat
  send_comm_map : List (Nat × List (List Nat × Nat))
  recv_comm_next_id : Nat
  recv_comm_map : List (Nat × List (Nat × Nat))
  socket_request_next_id : Nat
  socket_request_map : List (Nat × SocketRequest)
  deriving Repr, DecidableEq

/-- `BaguaNet::get_properties` (lines 270-282).  `speedOf` stands for the
external `utils::get_net_if_speed`; the Rust indexing
`&self.socket_devs[dev_id]` panics when out of range, modelled as
`none`. -/
def get_properties (net : BaguaNetState) (speedOf : String → Int)
    (dev_id : Nat) : Option NCCLNetProperties :=
  match net.socket_devs.get? dev_id with
  | none => none
  | some socket_dev =>
    some { name := socket_dev.interface_name,
           pci_path := socket_dev.pci_path,
           guid := dev_id,
           ptr_support := NCCL_PTR_HOST,
           speed := speedOf socket_dev.interface_name,
           port := 0,
           max_comms := DEFAULT_SOCKET_MAX_COMMS }

/-- `BaguaNet::test` (lines 638-668): look up the request (`.unwrap()` on a
missing id panics, modelled `none`), read its state under the mutex,
report `(completed, nbytes_transferred)`, and remove the entry when
completed.  Both match arms (lines 641-658) read the same fields. -/
def test (net : BaguaNetState) (request_id : Nat) :
    Option ((Bool × Nat) × BaguaNetState) :=
  match lookupA request_id net.socket_request_map with
  | none => none
  | some request =>
    let st := request.reqState
    if st.nsubtasks = st.completed_subtasks then
      some ((true, st.nbytes_transferred),
        { net with socket_request_map := removeA request_id net.socket_request_map })
    else
      some ((false, st.nbytes_transferred), net)

/-- `BaguaNet::isend` (lines 569-602): look up the send communicator
(`.unwrap()` panic on a missing id is `none`), allocate the next request
id, register a fresh request with `initialRequestState`, enqueue
`(data, state)` on the communicator's channel, and return `Ok(id)` —
there is no error path. -/
def isend (net : BaguaNetState) (send_comm_id : Nat) (data : List Nat) :
    Option (Except BaguaNetError (Nat × BaguaNetState)) :=
  match lookupA send_comm_id net.send_comm_map with
  | none => none
  | some queue =>
    let id := net.socket_request_next_id
    some (Except.ok (id,
      { net with
          socket_request_next_id := id + 1,
          socket_request_map :=
            insertA id (.sendRequest initialRequestState) net.socket_request_map,
          send_comm_map :=
            insertA send_comm_id (queue ++ [(data, id)]) net.send_comm_map }))

/-- `BaguaNet::irecv` (lines 604-636): the mirror image of `isend` for a
recv communicator; the buffer is represented by its length. -/
def irecv (net : BaguaNetState) (recv_comm_id : Nat) (buf_len : Nat) :
    Option (Except BaguaNetError (Nat × BaguaNetState)) :=
  match lookupA recv_comm_id net.recv_comm_map with
  | none => none
  | some queue =>
    let id := net.socket_request_next_id
    some (Except.ok (id,
      { net with
          socket_request_next_id := id + 1,
          socket_request_map :=
            insertA id (.recvRequest initialRequestState) net.socket_request_map,
          recv_comm_map :=
            insertA recv_comm_id (queue ++ [(buf_len, id)]) net.recv_comm_map }))

/-- `BaguaNet::close_send` (lines 670-674): remove the id (present or not)
and answer `Ok(())`. -/
def close_send (net : BaguaNetState) (send_comm_id : Nat) :
    Except BaguaNetError Unit × BaguaNetState :=
  (Except.ok (), { net with send_comm_map := removeA send_comm_id net.send_comm_map })

/-- `BaguaNet::close_recv` (lines 676-680). -/
def close_recv (net : BaguaNetState) (recv_comm_id : Nat) :
    Except BaguaNetError Unit × BaguaNetState :=
  (Except.ok (), { net with recv_comm_map := removeA recv_comm_id net.recv_comm_map })

/-- `BaguaNet::close_listen` (lines 682-689). -/
def close_listen (net : BaguaNetState) (listen_comm_id : Nat) :
    Except BaguaNetError Unit × BaguaNetState :=
  (Except.ok (), { net with listen_comm_map := removeA listen_comm_id net.listen_comm_map })

/-- Outcomes of the OS calls `listen` makes, supplied as an oracle:
`Socket::new` (line 299), `socket.bind` (line 310), `socket.listen`
(line 311) and the address reported by `listener.local_addr()`
(line 314). -/
structure ListenSyscalls where
  socket_new : Except String Unit
  bind : Except String Unit
  listen_call : Except String Unit
  local_addr : SockAddrM
  deriving Repr

/-- How a call to `listen` can end: a normal return with the socket handle,
the new listen-comm id and the updated engine; an error return; or a Rust
panic (an `.unwrap()` on a failed call or an out-of-bounds index). -/
inductive ListenResult where
  | ok (handle : SockAddrM) (id : Nat) (net : BaguaNetState)
  | err (e : BaguaNetError)
  | panicked (msg : String)
  deriving Repr, DecidableEq

/-- `true` exactly on an `IOError` return, the outcome the spec table
promises for socket/bind/listen failures. -/
def ListenResult.isIOErrorReturn : ListenResult → Bool
  | .err (.ioError _) => true
  | _ => false

/-- `BaguaNet::listen` (lines 284-328).  In order: index the device (Rust
panics when `dev_id` is out of range); a non-internet device address
returns `InnerError` (lines 290-297); a `Socket::new` failure returns
`IOError` (lines 299-309); `bind` and `listen` failures hit `.unwrap()`
and panic (lines 310-311); otherwise the listener is registered under the
next listen-comm id and `(socket_handle, id)` is returned. -/
def listen (net : BaguaNetState) (dev_id : Nat) (sys : ListenSyscalls) :
    ListenResult :=
  match net.socket_devs.get? dev_id with
  | none => .panicked "index out of bounds"
  | some socket_dev =>
    match socket_dev.addr with
    | .other desc =>
      .err (.innerError ("Got invalid socket address, which is " ++ desc))
    | .inet _ _ _ =>
      match sys.socket_new with
      | .error e => .err (.ioError e)
      | .ok _ =>
        match sys.bind with
        | .error e => .panicked e
        | .ok _ =>
          match sys.listen_call with
          | .error e => .panicked e
          | .ok _ =>
            let id := net.listen_comm_next_id
            .ok sys.local_addr id
              { net with
                  listen_comm_next_id := id + 1,
                  listen_comm_map := insertA id () net.listen_comm_map }

/-- The per-request concurrent system around one message: the request
counters, the buckets the control worker has not yet dispatched
(`pending`), the dispatched buckets sitting in stream-worker queues and
not yet transferred (`queued`), and whether the control worker has already
credited the control-header subtask (`ctrlDone`). -/
structure WorkerSys where
  req : RequestState
  pending : List (List Nat)
  queued : List (List Nat)
  ctrlDone : Bool
  deriving Repr, DecidableEq

/-- The system as it stands right after `isend`/`irecv` registered the
request and the control worker computed the buckets: fresh counters,
nothing dispatched. -/
def WorkerSys.start (buckets : List (List Nat)) : WorkerSys :=
  { req := initialRequestState, pending := buckets, queued := [], ctrlDone := false }

/-- One atomic step of the send- or receive-side worker ensemble.

`dispatch` is one turn of the control worker's bucket loop (lines 446-452
and 552-558): `nsubtasks += 1` under the mutex, then the bucket enters a
stream worker's queue.  `ctrlFinish` is the control worker crediting the
control-header subtask after the loop (lines 454 and 559).  `streamFinish`
is a stream worker completing one queued transfer (lines 374-382 and
486-498): `completed_subtasks += 1` and the bucket's length is added to
`nbytes_transferred`; any queued bucket may finish, which covers every
interleaving of the per-stream FIFO workers. -/
inductive WorkerStep : WorkerSys → WorkerSys → Prop where
  | dispatch (s : WorkerSys) (b : List Nat) (rest : List (List Nat)) :
      s.pending = b :: rest →
      WorkerStep s
        { req := { s.req with nsubtasks := s.req.nsubtasks + 1 },
          pending := rest,
          queued := s.queued ++ [b],
          ctrlDone := s.ctrlDone }
  | ctrlFinish (s : WorkerSys) :
      s.pending = [] →
      s.ctrlDone = false →
      WorkerStep s
        { s with
            req := { s.req with
                      completed_subtasks := s.req.completed_subtasks + 1 },
            ctrlDone := true }
  | streamFinish (s : WorkerSys) (l₁ l₂ : List (List Nat)) (b : List Nat) :
      s.queued = l₁ ++ b :: l₂ →
      WorkerStep s
        { s with
            req := { s.req with
                      completed_subtasks := s.req.completed_subtasks + 1,
                      nbytes_transferred := s.req.nbytes_transferred + b.length },
            queued := l₁ ++ l₂ }

/-- Counter bookkeeping that every reachable system state satisfies:
completions so far, plus in-flight buckets, plus the still-uncredited
control subtask, account exactly for the registered subtasks. -/
def WorkerSys.counters (s : WorkerSys) : Prop :=
  s.req.completed_subtasks + s.queued.length + (if s.ctrlDone then 0 else 1)
    = s.req.nsubtasks

/-- An engine with empty registries, the base of the concrete fixtures. -/
def emptyBaguaNet : BaguaNetState :=
  { socket_devs := [],
    listen_comm_next_id := 0, listen_comm_map := [],
    send_comm_next_id := 0, send_comm_map := [],
    recv_comm_next_id := 0, recv_comm_map := [],
    socket_request_next_id := 0, socket_request_map := [] }

/-- Fixture: an engine holding one completed send request under id 0. -/
def completedReqNet : BaguaNetState :=
  { emptyBaguaNet with
      socket_request_next_id := 1,
      socket_request_map := [(0, SocketRequest.sendRequest
        { nsubtasks := 2, completed_subtasks := 2, nbytes_transferred := 5 })] }

/-- Fixture: an engine holding one still-running recv request under id 0. -/
def runningReqNet : BaguaNetState :=
  { emptyBaguaNet with
      socket_request_next_id := 1,
      socket_request_map := [(0, SocketRequest.recvRequest
        { nsubtasks := 3, completed_subtasks := 2, nbytes_transferred := 7 })] }

/-- Fixture: an engine with send communicator 0 and recv communicator 1
registered with empty channels. -/
def commNet : BaguaNetState :=
  { emptyBaguaNet with
      send_comm_next_id := 1, send_comm_map := [(0, [])],
      recv_comm_next_id := 2, recv_comm_map := [(1, [])] }

/-- Fixture: a device bound to a v4 internet address. -/
def inetDev : NCCLSocketDev :=
  { interface_name := "eth0", pci_path := "/sys/devices/pci0000", 
    addr := SockAddrM.inet false [127, 0, 0, 1] 8123 }

/-- Fixture: an engine enumerating the single v4 device. -/
def inetDevNet : BaguaNetState :=
  { emptyBaguaNet with socket_devs := [inetDev] }

/-- Fixture: syscall outcomes where `bind` fails and everything else
succeeds. -/
def bindFailSyscalls : ListenSyscalls :=
  { socket_new := Except.ok (), bind := Except.error "EADDRINUSE",
    listen_call := Except.ok (),
    local_addr := SockAddrM.inet false [127, 0, 0, 1] 8123 }

/-- Fixture: syscall outcomes where every call succeeds. -/
def okSyscalls : ListenSyscalls :=
  { socket_new := Except.ok (), bind := Except.ok (),
    listen_call := Except.ok (),
    local_addr := SockAddrM.inet false [127, 0, 0, 1] 8123 }

theorem chunks_nil (size : Nat) : chunks size ([] : List α) = [] := by
  rw [chunks]; simp

theorem chunks_zero (l : List α) : chunks 0 l = [] := by
  rw [chunks]; simp

theorem chunks_cons (size : Nat) (l : List α) (hs : size ≠ 0) (hl : l ≠ []) :
    chunks size l = l.take size :: chunks size (l.drop size) := by
  rw [chunks]
  simp [hs, hl]

theorem chunks_join_aux (size : Nat) (hs : size ≠ 0) :
    ∀ n, ∀ l : List α, l.length = n → (chunks size l).flatten = l := by
  intro n
  induction n using Nat.strong_induction_on with
  | _ n ih =>
    intro l hn
    by_cases hl : l = []
    · subst hl; simp [chunks_nil]
    · rw [chunks_cons size l hs hl]
      have hlen : 0 < l.length := List.length_pos.mpr hl
      have h1 : 1 ≤ size := Nat.one_le_iff_ne_zero.mpr hs
      have hdrop : (l.drop size).length < n := by
        simp only [List.length_drop]; omega
      rw [List.flatten, ih _ hdrop _ rfl, List.take_append_drop]

/-- The chunks concatenate back to the original list. -/
theorem chunks_join (size : Nat) (hs : size ≠ 0) (l : List α) :
    (chunks size l).flatten = l :=
  chunks_join_aux size hs l.length l rfl

theorem chunks_dropLast_length_aux (size : Nat) :
    ∀ n, ∀ l : List α, l.length = n →
      ∀ c ∈ (chunks size l).dropLast, c.length = size := by
  intro n
  induction n using Nat.strong_induction_on with
  | _ n ih =>
    intro l hn c hc
    by_cases hs : size = 0
    · subst hs; simp [chunks_zero] at hc
    by_cases hl : l = []
    · subst hl; simp [chunks_nil] at hc
    rw [chunks_cons size l hs hl] at hc
    by_cases hrest : chunks size (l.drop size) = []
    · simp [hrest] at hc
    rw [List.dropLast_cons_of_ne_nil hrest] at hc
    have hlen : 0 < l.length := List.length_pos.mpr hl
    have h1 : 1 ≤ size := Nat.one_le_iff_ne_zero.mpr hs
    rcases List.mem_cons.mp hc with hc | hc
    · subst hc
      have hle : size ≤ l.length := by
        by_contra hlt
        push_neg at hlt
        have hdropnil : l.drop size = [] := List.drop_eq_nil_of_le (Nat.le_of_lt hlt)
        rw [hdropnil, chunks_nil] at hrest
        exact hrest rfl
      simp [List.length_take, Nat.min_eq_left hle]
    · have hdrop : (l.drop size).length < n := by
        simp only [List.length_drop]; omega
      exact ih _ hdrop _ rfl c hc

/-- Every chunk except the last has exactly `size` elements. -/
theorem chunks_dropLast_length (size : Nat) (l : List α) :
    ∀ c ∈ (chunks size l).dropLast, c.length = size :=
  chunks_dropLast_length_aux size l.length l rfl

theorem chunks_length_le_aux (size : Nat) :
    ∀ n, ∀ l : List α, l.length = n →
      ∀ c ∈ chunks size l, 0 < c.length ∧ c.length ≤ size := by
  intro n
  induction n using Nat.strong_induction_on with
  | _ n ih =>
    intro l hn c hc
    by_cases hs : size = 0
    · subst hs; simp [chunks_zero] at hc
    by_cases hl : l = []
    · subst hl; simp [chunks_nil] at hc
    rw [chunks_cons size l hs hl] at hc
    have hlen : 0 < l.length := List.length_pos.mpr hl
    have h1 : 1 ≤ size := Nat.one_le_iff_ne_zero.mpr hs
    rcases List.mem_cons.mp hc with hc | hc
    · subst hc
      constructor
      · simp only [List.length_take]; omega
      · simp [List.length_take]
    · have hdrop : (l.drop size).length < n := by
        simp only [List.length_drop]; omega
      exact ih _ hdrop _ rfl c hc

/-- Every chunk is nonempty and no longer than `size`. -/
theorem chunks_length_le (size : Nat) (l : List α) :
    ∀ c ∈ chunks size l, 0 < c.length ∧ c.length ≤ size :=
  chunks_length_le_aux size l.length l rfl

theorem u64be_length (n : Nat) : (u64be n).length = 8 := rfl

theorem fromBeBytes_u64be (n : Nat) (h : n < 2 ^ 64) : fromBeBytes (u64be n) = n := by
  simp only [u64be, fromBeBytes, List.foldl]
  omega

theorem sendCtrlStep_controlBytes (t n : Nat) (data : List Nat)
    (st : RequestState) (did : Nat) :
    (sendCtrlStep t n data st did).controlBytes = u64be data.length := by
  by_cases h : data.length = 0 <;> simp [sendCtrlStep, h]

theorem counters_start (buckets : List (List Nat)) :
    (WorkerSys.start buckets).counters := by
  simp [WorkerSys.start, WorkerSys.counters, initialRequestState]

theorem counters_step {s s' : WorkerSys} (hstep : WorkerStep s s')
    (h : s.counters) : s'.counters := by
  cases hstep with
  | dispatch b rest hp =>
    simp only [WorkerSys.counters] at h ⊢
    simp only [List.length_append, List.length_cons, List.length_nil]
    omega
  | ctrlFinish hp hc =>
    simp only [WorkerSys.counters] at h ⊢
    rw [hc] at h
    simp only [Bool.false_eq_true, if_false, if_true] at h ⊢
    omega
  | streamFinish l₁ l₂ b hq =>
    simp only [WorkerSys.counters] at h ⊢
    rw [hq] at h
    simp only [List.length_append, List.length_cons] at h ⊢
    omega

theorem counters_reachable {s s' : WorkerSys}
    (h : Relation.ReflTransGen WorkerStep s s') (hs : s.counters) :
    s'.counters := by
  induction h with
  | refl => exact hs
  | tail _ hstep ih => exact counters_step hstep ih

theorem lookupA_insertA_self (k : Nat) (v : β) (l : List (Nat × β)) :
    lookupA k (insertA k v l) = some v := by
  simp [insertA, lookupA]

theorem lookupA_removeA_self (k : Nat) (l : List (Nat × β)) :
    lookupA k (removeA k l) = none := by
  induction l with
  | nil => rfl
  | cons hd tl ih =>
    obtain ⟨k', v⟩ := hd
    by_cases hk : k' = k
    · simp [removeA, hk, ih]
    · simp [removeA, lookupA, hk, ih]

theorem removeA_idem (k : Nat) (l : List (Nat × β)) :
    removeA k (removeA k l) = removeA k l := by
  induction l with
  | nil => rfl
  | cons hd tl ih =>
    obtain ⟨k', v⟩ := hd
    by_cases hk : k' = k
    · simp [removeA, hk, ih]
    · simp [removeA, hk, ih]

theorem dispatchBuckets_snd_map (nstreams : Nat) :
    ∀ (bks : List (List Nat)) (st : RequestState) (did : Nat),
      ((dispatchBuckets nstreams st did bks).2.2.map Prod.snd) = bks := by
  intro bks
  induction bks with
  | nil => intro st did; rfl
  | cons b rest ih =>
    intro st did
    simp only [dispatchBuckets, List.map_cons]
    rw [ih]

theorem dispatchBuckets_nsubtasks (nstreams : Nat) :
    ∀ (bks : List (List Nat)) (st : RequestState) (did : Nat),
      (dispatchBuckets nstreams st did bks).1.nsubtasks
        = st.nsubtasks + bks.length
      ∧ (dispatchBuckets nstreams st did bks).1.completed_subtasks
        = st.completed_subtasks
      ∧ (dispatchBuckets nstreams st did bks).1.nbytes_transferred
        = st.nbytes_transferred := by
  intro bks
  induction bks with
  | nil => intro st did; simp [dispatchBuckets]
  | cons b rest ih =>
    intro st did
    simp only [dispatchBuckets, List.length_cons]
    refine ⟨?_, ?_, ?_⟩
    · rw [(ih _ _).1]; simp; omega
    · rw [(ih _ _).2.1]
    · rw [(ih _ _).2.2]

theorem le_bucketSize (t n len : Nat) : len ≤ bucketSize t n len := by
  unfold bucketSize
  split
  · exact Nat.le_add_right _ _
  · exact Nat.le_refl _

theorem sendCtrlStep_dispatches (t n : Nat) (data : List Nat)
    (st : RequestState) (did : Nat) (h : data.length ≠ 0) :
    (sendCtrlStep t n data st did).dispatches
      = (dispatchBuckets n st did (chunks (bucketSize t n data.length) data)).2.2 := by
  simp [sendCtrlStep, h]

theorem recvCtrlStep_dispatches (t n : Nat) (buf ctrl : List Nat)
    (st : RequestState) (did : Nat) (h : fromBeBytes (ctrl.take 8) ≠ 0) :
    (recvCtrlStep t n buf ctrl st did).dispatches
      = (dispatchBuckets n st did
          (chunks (bucketSize t n (fromBeBytes (ctrl.take 8)))
            (buf.take (fromBeBytes (ctrl.take 8))))).2.2 := by
  simp [recvCtrlStep, h]

theorem sendCtrlTrace_cons (t n did : Nat) (data : List Nat)
    (rest : List (List Nat)) :
    sendCtrlTrace t n did (data :: rest)
      = u64be data.length
        ++ sendCtrlTrace t n
            (sendCtrlStep t n data initialRequestState did).downstreamId rest := by
  simp only [sendCtrlTrace]
  rw [sendCtrlStep_controlBytes]

/-- **C1** (code bug, evaluated at the failing input): with
`task_split_threshold = 1048576`, `nstreams = 2` and a payload of
`2097152` bytes, the control workers' `bucketSize` — the code's
`data.len() + (parallel_streams.len() - 1) / parallel_streams.len()` —
yields the whole payload length `2097152`, not the claimed
`ceil(2097152 / 2) = (2097152 + 2 - 1) / 2 = 1048576` (which
`bucketSizeSpec`, the spec's formula, computes). -/
theorem bucket_size_at_failing_input :
    bucketSize 1048576 2 2097152 = 2097152
    ∧ bucketSizeSpec 1048576 2 2097152 = 1048576
    ∧ (2097152 + 2 - 1) / 2 = 1048576
    ∧ bucketSize 1048576 2 2097152 ≠ bucketSizeSpec 1048576 2 2097152 := by
  refine ⟨?_, ?_, ?_, ?_⟩ <;> decide

/-- **C2**: the send-side control worker writes, per application message and
in application call order, exactly the 8-byte big-endian length header to
the control endpoint — the whole control-endpoint byte trace of a run is
the concatenation of the headers, so payload bytes never travel there —
and the receive-side control worker consumes exactly 8 bytes of the
control stream per message. -/
theorem control_plane_headers_only (t n did rdid : Nat)
    (msgs : List (List Nat)) (buf ctrl : List Nat) (st : RequestState) :
    sendCtrlTrace t n did msgs = (msgs.map (fun m => u64be m.length)).flatten
    ∧ (∀ m : List Nat, (u64be m.length).length = 8)
    ∧ (recvCtrlStep t n buf ctrl st rdid).ctrlRest = ctrl.drop 8 := by
  refine ⟨?_, fun m => u64be_length m.length, ?_⟩
  · induction msgs generalizing did with
    | nil => rfl
    | cons data rest ih =>
      rw [sendCtrlTrace_cons, List.map_cons, List.flatten_cons, ih]
  · by_cases h0 : fromBeBytes (ctrl.take 8) = 0
    · simp [recvCtrlStep, h0]
    · simp [recvCtrlStep, h0]

/-- **C3**: for a message of positive payload length, the buckets dispatched
by the send-side control worker are exactly `data.chunks(bucket_size)` —
contiguous slices that concatenate back to the payload, whose lengths sum
to the payload length, all of length `bucket_size` except possibly a
shorter last one — and symmetrically on the receive side for the first
`L` bytes of the receive buffer, `L` the decoded header. -/
theorem buckets_partition_payload (t n did rdid : Nat)
    (data buf ctrl : List Nat) (st st' : RequestState)
    (hL : 0 < data.length)
    (hR : 0 < fromBeBytes (ctrl.take 8))
    (hcap : fromBeBytes (ctrl.take 8) ≤ buf.length) :
    ((sendCtrlStep t n data st did).dispatches.map Prod.snd
        = chunks (bucketSize t n data.length) data
      ∧ (chunks (bucketSize t n data.length) data).flatten = data
      ∧ ((chunks (bucketSize t n data.length) data).map List.length).sum
          = data.length
      ∧ (∀ c ∈ (chunks (bucketSize t n data.length) data).dropLast,
          c.length = bucketSize t n data.length)
      ∧ ∀ c ∈ chunks (bucketSize t n data.length) data,
          0 < c.length ∧ c.length ≤ bucketSize t n data.length)
    ∧ ((recvCtrlStep t n buf ctrl st' rdid).dispatches.map Prod.snd
        = chunks (bucketSize t n (fromBeBytes (ctrl.take 8)))
            (buf.take (fromBeBytes (ctrl.take 8)))
      ∧ (chunks (bucketSize t n (fromBeBytes (ctrl.take 8)))
            (buf.take (fromBeBytes (ctrl.take 8)))).flatten
          = buf.take (fromBeBytes (ctrl.take 8))
      ∧ ((chunks (bucketSize t n (fromBeBytes (ctrl.take 8)))
            (buf.take (fromBeBytes (ctrl.take 8)))).map List.length).sum
          = fromBeBytes (ctrl.take 8)
      ∧ (∀ c ∈ (chunks (bucketSize t n (fromBeBytes (ctrl.take 8)))
            (buf.take (fromBeBytes (ctrl.take 8)))).dropLast,
          c.length = bucketSize t n (fromBeBytes (ctrl.take 8)))
      ∧ ∀ c ∈ chunks (bucketSize t n (fromBeBytes (ctrl.take 8)))
            (buf.take (fromBeBytes (ctrl.take 8))),
          0 < c.length
            ∧ c.length ≤ bucketSize t n (fromBeBytes (ctrl.take 8))) := by
  have hbs : bucketSize t n data.length ≠ 0 := by
    have := le_bucketSize t n data.length
    omega
  have hbs' : bucketSize t n (fromBeBytes (ctrl.take 8)) ≠ 0 := by
    have := le_bucketSize t n (fromBeBytes (ctrl.take 8))
    omega
  constructor
  · refine ⟨?_, chunks_join _ hbs data, ?_, chunks_dropLast_length _ data,
      chunks_length_le _ data⟩
    · rw [sendCtrlStep_dispatches t n data st did (by omega),
        dispatchBuckets_snd_map]
    · rw [← List.length_flatten, chunks_join _ hbs data]
  · refine ⟨?_, chunks_join _ hbs' _, ?_, chunks_dropLast_length _ _,
      chunks_length_le _ _⟩
    · rw [recvCtrlStep_dispatches t n buf ctrl st' rdid (by omega),
        dispatchBuckets_snd_map]
    · rw [← List.length_flatten, chunks_join _ hbs' _, List.length_take]
      omega

/-- C3 witness: the theorem applied at threshold 4, two streams, payload
`[7, 8, 9]`, buffer `[1, 2, 3, 4]` and control stream `u64be 3`. -/
theorem buckets_partition_payload_witness :
    ((sendCtrlStep 4 2 [7, 8, 9] initialRequestState 0).dispatches.map
        Prod.snd).flatten = [7, 8, 9]
    ∧ ((recvCtrlStep 4 2 [1, 2, 3, 4] (u64be 3)
        initialRequestState 0).dispatches.map Prod.snd).flatten
      = [1, 2, 3] := by
  have h := buckets_partition_payload 4 2 0 0 [7, 8, 9] [1, 2, 3, 4] (u64be 3)
    initialRequestState initialRequestState (by decide) (by decide) (by decide)
  constructor
  · rw [h.1.1, h.1.2.1]
  · rw [h.2.1]
    have h2 := h.2.2.1
    norm_num [u64be, fromBeBytes] at h2 ⊢
    rw [h2]

/-- **C5**: in every state reachable, by any interleaving of control-worker
dispatching, control-subtask crediting and stream-worker completions, from
the request state `isend`/`irecv` create (`nsubtasks = 1`,
`completed_subtasks = 0`) with the message's buckets still to dispatch,
`completed_subtasks ≤ nsubtasks` holds. -/
theorem completed_le_nsubtasks (t n : Nat) (data : List Nat) (s : WorkerSys)
    (h : Relation.ReflTransGen WorkerStep
      (WorkerSys.start (chunks (bucketSize t n data.length) data)) s) :
    s.req.completed_subtasks ≤ s.req.nsubtasks := by
  have hc := counters_reachable h (counters_start _)
  simp only [WorkerSys.counters] at hc
  omega

/-- C5 witness: the invariant at the start state for a three-byte payload
on two streams. -/
theorem completed_le_nsubtasks_witness :
    (WorkerSys.start
        (chunks (bucketSize 0 2 (List.length [1, 2, 3])) [1, 2, 3])).req.completed_subtasks
      ≤ (WorkerSys.start
        (chunks (bucketSize 0 2 (List.length [1, 2, 3])) [1, 2, 3])).req.nsubtasks :=
  completed_le_nsubtasks 0 2 [1, 2, 3] _ Relation.ReflTransGen.refl

/-- **C6**: a zero-length message yields only the control-header subtask on
both sides — the sender writes just the 8 header bytes and credits one
completion, the receiver decodes length 0, dispatches nothing and credits
one completion — and `test` on the resulting `{1, 1, 0}` state returns
`(true, 0)` and drops the request. -/
theorem zero_length_single_control_subtask (t n did rdid reqid : Nat)
    (buf rest : List Nat) :
    sendCtrlStep t n [] initialRequestState did
      = { controlBytes := u64be 0, dispatches := [],
          state := { nsubtasks := 1, completed_subtasks := 1,
                     nbytes_transferred := 0 },
          downstreamId := did }
    ∧ recvCtrlStep t n buf (u64be 0 ++ rest) initialRequestState rdid
      = { ctrlRest := rest, dispatches := [],
          state := { nsubtasks := 1, completed_subtasks := 1,
                     nbytes_transferred := 0 },
          downstreamId := rdid }
    ∧ test
        { emptyBaguaNet with
            socket_request_next_id := reqid + 1,
            socket_request_map := [(reqid, SocketRequest.sendRequest
              { nsubtasks := 1, completed_subtasks := 1,
                nbytes_transferred := 0 })] } reqid
      = some ((true, 0),
          { emptyBaguaNet with
              socket_request_next_id := reqid + 1,
              socket_request_map := [] }) := by
  refine ⟨rfl, rfl, ?_⟩
  simp [test, lookupA, removeA, SocketRequest.reqState]

/-- **C4**: `test` on a registered request reads its counters; when
`completed_subtasks = nsubtasks` it answers `(true, nbytes_transferred)`
and removes the entry from the registry, otherwise it answers
`(false, nbytes_transferred)` and leaves the engine untouched. -/
theorem test_completion_semantics (net : BaguaNetState) (id : Nat)
    (request : SocketRequest)
    (h : lookupA id net.socket_request_map = some request) :
    (request.reqState.nsubtasks = request.reqState.completed_subtasks →
      test net id = some ((true, request.reqState.nbytes_transferred),
        { net with socket_request_map := removeA id net.socket_request_map })
      ∧ lookupA id (removeA id net.socket_request_map) = none)
    ∧ (request.reqState.nsubtasks ≠ request.reqState.completed_subtasks →
      test net id = some ((false, request.reqState.nbytes_transferred), net)) := by
  constructor
  · intro hceq
    exact ⟨by simp [test, h, hceq], lookupA_removeA_self id _⟩
  · intro hne
    simp [test, h, hne]

/-- C4 witness: both outcomes on concrete registries — a completed send
request is reported done with its 5 transferred bytes and removed, a
running recv request is reported not done with 7 bytes so far and kept. -/
theorem test_completion_semantics_witness :
    (test completedReqNet 0
        = some ((true, 5),
            { completedReqNet with
                socket_request_map := removeA 0 completedReqNet.socket_request_map })
      ∧ lookupA 0 (removeA 0 completedReqNet.socket_request_map) = none)
    ∧ test runningReqNet 0 = some ((false, 7), runningReqNet) :=
  ⟨(test_completion_semantics completedReqNet 0
      (SocketRequest.sendRequest
        { nsubtasks := 2, completed_subtasks := 2, nbytes_transferred := 5 })
      rfl).1 rfl,
   (test_completion_semantics runningReqNet 0
      (SocketRequest.recvRequest
        { nsubtasks := 3, completed_subtasks := 2, nbytes_transferred := 7 })
      rfl).2 (by decide)⟩

/-- **C7**: on a registered communicator, `isend` and `irecv` cannot fail:
each allocates the next request id, registers a fresh request in state
`{nsubtasks = 1, completed_subtasks = 0, nbytes_transferred = 0}`,
appends the buffer to the communicator's channel, bumps the id counter and
returns `Ok(id)`. -/
theorem isend_irecv_always_ok (net : BaguaNetState) (scid rcid : Nat)
    (data : List Nat) (buf_len : Nat)
    (q : List (List Nat × Nat)) (rq : List (Nat × Nat))
    (hs : lookupA scid net.send_comm_map = some q)
    (hr : lookupA rcid net.recv_comm_map = some rq) :
    (∃ net' : BaguaNetState,
      isend net scid data = some (Except.ok (net.socket_request_next_id, net'))
      ∧ lookupA net.socket_request_next_id net'.socket_request_map
          = some (SocketRequest.sendRequest initialRequestState)
      ∧ lookupA scid net'.send_comm_map
          = some (q ++ [(data, net.socket_request_next_id)])
      ∧ net'.socket_request_next_id = net.socket_request_next_id + 1)
    ∧ (∃ net' : BaguaNetState,
      irecv net rcid buf_len = some (Except.ok (net.socket_request_next_id, net'))
      ∧ lookupA net.socket_request_next_id net'.socket_request_map
          = some (SocketRequest.recvRequest initialRequestState)
      ∧ lookupA rcid net'.recv_comm_map
          = some (rq ++ [(buf_len, net.socket_request_next_id)])
      ∧ net'.socket_request_next_id = net.socket_request_next_id + 1) := by
  constructor
  · refine ⟨{ net with
        socket_request_next_id := net.socket_request_next_id + 1,
        socket_request_map := insertA net.socket_request_next_id
          (SocketRequest.sendRequest initialRequestState) net.socket_request_map,
        send_comm_map := insertA scid
          (q ++ [(data, net.socket_request_next_id)]) net.send_comm_map },
      ?_, ?_, ?_, rfl⟩
    · simp [isend, hs]
    · exact lookupA_insertA_self _ _ _
    · exact lookupA_insertA_self _ _ _
  · refine ⟨{ net with
        socket_request_next_id := net.socket_request_next_id + 1,
        socket_request_map := insertA net.socket_request_next_id
          (SocketRequest.recvRequest initialRequestState) net.socket_request_map,
        recv_comm_map := insertA rcid
          (rq ++ [(buf_len, net.socket_request_next_id)]) net.recv_comm_map },
      ?_, ?_, ?_, rfl⟩
    · simp [irecv, hr]
    · exact lookupA_insertA_self _ _ _
    · exact lookupA_insertA_self _ _ _

/-- C7 witness: the theorem at the two-communicator fixture, a one-byte
send and a four-byte receive buffer. -/
theorem isend_irecv_always_ok_witness :
    (∃ net' : BaguaNetState,
      isend commNet 0 [9] = some (Except.ok (commNet.socket_request_next_id, net'))
      ∧ lookupA commNet.socket_request_next_id net'.socket_request_map
          = some (SocketRequest.sendRequest initialRequestState)
      ∧ lookupA 0 net'.send_comm_map
          = some ([] ++ [([9], commNet.socket_request_next_id)])
      ∧ net'.socket_request_next_id = commNet.socket_request_next_id + 1)
    ∧ (∃ net' : BaguaNetState,
      irecv commNet 1 4 = some (Except.ok (commNet.socket_request_next_id, net'))
      ∧ lookupA commNet.socket_request_next_id net'.socket_request_map
          = some (SocketRequest.recvRequest initialRequestState)
      ∧ lookupA 1 net'.recv_comm_map
          = some ([] ++ [(4, commNet.socket_request_next_id)])
      ∧ net'.socket_request_next_id = commNet.socket_request_next_id + 1) :=
  isend_irecv_always_ok commNet 0 1 [9] 4 [] [] rfl rfl

/-- **C10**: the three `close_*` operations return `Ok(())` for every id —
registered, never registered or already closed — and closing the same id
twice leaves the same engine as closing it once. -/
theorem close_always_ok (net : BaguaNetState) (id : Nat) :
    (close_send net id).1 = Except.ok ()
    ∧ (close_recv net id).1 = Except.ok ()
    ∧ (close_listen net id).1 = Except.ok ()
    ∧ close_send (close_send net id).2 id = close_send net id
    ∧ close_recv (close_recv net id).2 id = close_recv net id
    ∧ close_listen (close_listen net id).2 id = close_listen net id := by
  refine ⟨rfl, rfl, rfl, ?_, ?_, ?_⟩ <;>
    simp [close_send, close_recv, close_listen, removeA_idem]

/-- **C9**: `get_properties` fails (the Rust indexing panics) exactly when
`dev_id` is out of range, and any returned properties carry
`guid = dev_id`, host-only pointer support, `port = 0` and
`max_comms = 65536`. -/
theorem get_properties_bounds (net : BaguaNetState) (speedOf : String → Int)
    (dev_id : Nat) :
    (get_properties net speedOf dev_id = none ↔ net.socket_devs.length ≤ dev_id)
    ∧ ∀ p : NCCLNetProperties, get_properties net speedOf dev_id = some p →
        p.guid = dev_id ∧ p.ptr_support = NCCL_PTR_HOST ∧ p.ptr_support = 1
          ∧ p.port = 0 ∧ p.max_comms = DEFAULT_SOCKET_MAX_COMMS
          ∧ p.max_comms = 65536 := by
  constructor
  · rw [← List.getElem?_eq_none_iff]
    cases hget : net.socket_devs[dev_id]? with
    | none => simp [get_properties, hget]
    | some d => simp [get_properties, hget]
  · intro p hp
    cases hget : net.socket_devs[dev_id]? with
    | none =>
      rw [get_properties, List.get?_eq_getElem?, hget] at hp
      cases hp
    | some d =>
      rw [get_properties, List.get?_eq_getElem?, hget] at hp
      cases hp
      exact ⟨rfl, rfl, rfl, rfl, rfl, rfl⟩

/-- C9 witness: the in-range direction at the one-device fixture and the
out-of-range direction at index 1. -/
theorem get_properties_bounds_witness :
    ({ name := "eth0", pci_path := "/sys/devices/pci0000", guid := 0,
       ptr_support := NCCL_PTR_HOST, speed := 100, port := 0,
       max_comms := 65536 } : NCCLNetProperties).guid = 0
    ∧ ({ name := "eth0", pci_path := "/sys/devices/pci0000", guid := 0,
         ptr_support := NCCL_PTR_HOST, speed := 100, port := 0,
         max_comms := 65536 } : NCCLNetProperties).max_comms = 65536
    ∧ get_properties inetDevNet (fun _ => 100) 1 = none :=
  ⟨((get_properties_bounds inetDevNet (fun _ => 100) 0).2 _ rfl).1,
   ((get_properties_bounds inetDevNet (fun _ => 100) 0).2 _ rfl).2.2.2.2.2,
   (get_properties_bounds inetDevNet (fun _ => 100) 1).1.mpr (by decide)⟩

/-- C8 counterexample: with a valid v4 device and a `bind` that fails,
`listen` hits the `.unwrap()` at line 310 and panics — it does not return
the `IOError` value the claim promises for a bind failure. -/
theorem listen_bind_failure_panics :
    listen inetDevNet 0 bindFailSyscalls = ListenResult.panicked "EADDRINUSE"
    ∧ (listen inetDevNet 0 bindFailSyscalls).isIOErrorReturn = false :=
  ⟨rfl, rfl⟩

/-- **C8 (amended)**: `listen` returns `InnerError` for a non-internet
device address and `IOError` for a `Socket::new` failure; a `bind` or
`listen` syscall failure makes it panic (`.unwrap()`), not return
`IOError`; with all syscalls succeeding it registers the listener and
returns the socket handle with the new listen-comm id. -/
theorem listen_error_classification (net : BaguaNetState) (dev_id : Nat)
    (sys : ListenSyscalls) (d : NCCLSocketDev)
    (hd : net.socket_devs.get? dev_id = some d) :
    (∀ desc, d.addr = SockAddrM.other desc →
      listen net dev_id sys
        = ListenResult.err (BaguaNetError.innerError
            ("Got invalid socket address, which is " ++ desc)))
    ∧ (∀ v6 a p e, d.addr = SockAddrM.inet v6 a p →
      sys.socket_new = Except.error e →
      listen net dev_id sys = ListenResult.err (BaguaNetError.ioError e))
    ∧ (∀ v6 a p e, d.addr = SockAddrM.inet v6 a p →
      sys.socket_new = Except.ok () → sys.bind = Except.error e →
      listen net dev_id sys = ListenResult.panicked e)
    ∧ (∀ v6 a p e, d.addr = SockAddrM.inet v6 a p →
      sys.socket_new = Except.ok () → sys.bind = Except.ok () →
      sys.listen_call = Except.error e →
      listen net dev_id sys = ListenResult.panicked e)
    ∧ (∀ v6 a p, d.addr = SockAddrM.inet v6 a p →
      sys.socket_new = Except.ok () → sys.bind = Except.ok () →
      sys.listen_call = Except.ok () →
      listen net dev_id sys
        = ListenResult.ok sys.local_addr net.listen_comm_next_id
            { net with
                listen_comm_next_id := net.listen_comm_next_id + 1,
                listen_comm_map :=
                  insertA net.listen_comm_next_id () net.listen_comm_map }) := by
  have hd' : net.socket_devs[dev_id]? = some d := by
    rw [← List.get?_eq_getElem?]; exact hd
  refine ⟨?_, ?_, ?_, ?_, ?_⟩
  · intro desc haddr
    simp [listen, hd, hd', haddr]
  · intro v6 a p e haddr hsn
    simp [listen, hd, hd', haddr, hsn]
  · intro v6 a p e haddr hsn hb
    simp [listen, hd, hd', haddr, hsn, hb]
  · intro v6 a p e haddr hsn hb hl
    simp [listen, hd, hd', haddr, hsn, hb, hl]
  · intro v6 a p haddr hsn hb hl
    simp [listen, hd, hd', haddr, hsn, hb, hl]

/-- C8 witness: the all-syscalls-succeed path at the one-device fixture. -/
theorem listen_error_classification_witness :
    listen inetDevNet 0 okSyscalls
      = ListenResult.ok (SockAddrM.inet false [127, 0, 0, 1] 8123) 0
          { inetDevNet with
              listen_comm_next_id := 1,
              listen_comm_map := insertA 0 () [] } :=
  (listen_error_classification inetDevNet 0 okSyscalls inetDev rfl).2.2.2.2
    false [127, 0, 0, 1] 8123 rfl rfl rfl rfl
